import Mathlib

/-
Verification of the streaming/persistence gateway in backend/app.

Shallow embedding conventions:
  * Python `str` is `String`, `int` is `Nat` (all integers involved are
    non-negative timestamps/counters), `None`-able values are `Option`.
  * A Python exception that a function may raise is an `Except String`
    result; a swallowed exception (logged and discarded) leaves no trace.
  * The upstream provider SDK is opaque: what it would produce for a given
    request is an input of the embedding (`StreamOutcome`,
    `Except String ChatResponseFull`).
  * Wall-clock time is an explicit `Nat`; the per-stream deadline of
    `_stream_with_timeout` is modelled as a budget: the number of inner
    events the wrapper manages to forward before the deadline fires.
-/

set_option maxRecDepth 16000

namespace Gateway

/-- providers/base.py `ChatMessage`: one request message (role, content). -/
structure Message where
  role : String
  content : String
deriving DecidableEq, Repr

/-- Token-count dictionary carried in `usage` fields
(providers/openai_provider.py builds it with three keys). -/
structure Usage where
  prompt_tokens : Option Nat
  completion_tokens : Option Nat
  total_tokens : Option Nat
deriving DecidableEq, Repr

/-- providers/base.py `ChatResponseChunk`: one streamed provider chunk.
The `usage` field of the Python class is never set by the OpenAI provider
nor read by the routes, so it is elided here. -/
structure ChatResponseChunk where
  id : String
  model : String
  created : Nat
  delta : String
  finish_reason : Option String
deriving DecidableEq, Repr

/-- providers/base.py `ChatResponseFull`: a buffered provider response. -/
structure ChatResponseFull where
  id : String
  model : String
  created : Nat
  content : String
  finish_reason : Option String
  usage : Option Usage
deriving DecidableEq, Repr

/-- Behaviour of one consumption of the provider's lazy chunk sequence:
either it ends naturally after yielding `chunks`, or it raises an
exception (whose `str(e)` is `errMsg`) after yielding `chunks`. -/
inductive StreamOutcome where
  | success (chunks : List ChatResponseChunk)
  | failure (chunks : List ChatResponseChunk) (errMsg : String)
deriving DecidableEq, Repr

/-- The chunks a `StreamOutcome` yields before terminating. -/
def StreamOutcome.chunks : StreamOutcome → List ChatResponseChunk
  | .success cs => cs
  | .failure cs _ => cs

/-- One wire-level server-sent event, structured.  `chunkEvent` mirrors the
`response_data` dict of `event_gen` (routes/messages.py lines 121-131),
`errorEvent` the error dicts of lines 139-142 (with `message` present) and
line 43 (timeout, `message` absent), and `done` the literal terminal
sentinel `data: [DONE]\n\n`. -/
inductive SSEvent where
  | chunkEvent (id : String) (model : String) (created : Nat) (delta : String)
      (finish_reason : Option String) (conversation_id : Option String)
  | errorEvent (error : String) (message : Option String)
  | done
deriving DecidableEq, Repr

/-- JSON string escaping as used by `json.dumps(..., ensure_ascii=False)`
restricted to the escapes that can matter here (quote, backslash, common
control characters); other characters pass through unchanged. -/
def escChar (c : Char) : List Char :=
  if c = '"' then ['\\', '"']
  else if c = '\\' then ['\\', '\\']
  else if c = '\n' then ['\\', 'n']
  else if c = '\r' then ['\\', 'r']
  else if c = '\t' then ['\\', 't']
  else [c]

/-- Escape a whole string for embedding in a JSON document. -/
def jsonEscape (s : String) : String :=
  ⟨s.data.foldr (fun c acc => escChar c ++ acc) []⟩

/-- Render a JSON string literal. -/
def jstr (s : String) : String := "\"" ++ jsonEscape s ++ "\""

/-- Render an optional string as JSON (`None` serialises as `null`). -/
def jopt : Option String → String
  | none => "null"
  | some s => jstr s

/-- `_sse_format` (routes/messages.py line 32) applied to each structured
event: the `data: <json>\n\n` frame, with the terminal sentinel rendered
as the literal `data: [DONE]\n\n`.  Key order matches dict insertion
order in `event_gen`, as `json.dumps` preserves it. -/
def SSEvent.render : SSEvent → String
  | .done => "data: [DONE]\n\n"
  | .chunkEvent i m c d f cid =>
      "data: \x7b\"id\": " ++ jstr i ++ ", \"model\": " ++ jstr m
        ++ ", \"created\": " ++ toString c ++ ", \"delta\": " ++ jstr d
        ++ ", \"finish_reason\": " ++ jopt f
        ++ (match cid with
            | none => ""
            | some v => ", \"conversation_id\": " ++ jstr v)
        ++ "\x7d\n\n"
  | .errorEvent e msg =>
      "data: \x7b\"error\": " ++ jstr e
        ++ (match msg with
            | none => ""
            | some v => ", \"message\": " ++ jstr v)
        ++ "\x7d\n\n"

/-- The chunk-forwarding loop of `event_gen` (routes/messages.py lines
116-131).  `tokens` counts chunks with a non-empty delta (`if chunk.delta:
tokens += 1`); a chunk's frame carries `conversation_id` exactly when a
conversation id exists and `tokens == 1` after processing that chunk. -/
def emitLoop (conversation_id : Option String) : Nat → List ChatResponseChunk → List SSEvent
  | _, [] => []
  | tokens, c :: rest =>
      let tokens' := if c.delta != "" then tokens + 1 else tokens
      let cidOut : Option String :=
        if conversation_id.isSome && (tokens' == 1) then conversation_id else none
      SSEvent.chunkEvent c.id c.model c.created c.delta c.finish_reason cidOut
        :: emitLoop conversation_id tokens' rest

/-- `event_gen` (routes/messages.py lines 110-144): forward the provider
chunks, then either the terminal sentinel (natural exhaustion) or — when
the provider sequence raises — one error event whose payload is
`{"error": "Streaming error occurred", "message": str(e)}` followed by
the terminal sentinel.  The `finally` block (persistence, usage) yields
nothing and is modelled where the handler is embedded. -/
def event_gen (conversation_id : Option String) (outcome : StreamOutcome) : List SSEvent :=
  match outcome with
  | .success chunks => emitLoop conversation_id 0 chunks ++ [SSEvent.done]
  | .failure chunks errMsg =>
      emitLoop conversation_id 0 chunks
        ++ [SSEvent.errorEvent "Streaming error occurred" (some errMsg), SSEvent.done]

/-- `_stream_with_timeout` (routes/messages.py lines 35-44): forward the
inner generator's events until it finishes or the deadline fires.  The
deadline is modelled by `budget`, the number of inner events forwarded
before expiry: if the inner sequence is longer, the wrapper stops
consuming it and emits `{"error": "Stream timeout exceeded"}` followed by
the terminal sentinel. -/
def stream_with_timeout (inner : List SSEvent) (budget : Nat) : List SSEvent :=
  if budget < inner.length then
    inner.take budget ++ [SSEvent.errorEvent "Stream timeout exceeded" none, SSEvent.done]
  else inner

/-- A string whose first seven characters are `data: {` is not the
terminal sentinel literal. -/
theorem take7_ne_sentinel (s : String)
    (hs : s.data.take 7 = ['d', 'a', 't', 'a', ':', ' ', '\x7b']) :
    s ≠ "data: [DONE]\n\n" := by
  intro h
  subst h
  exact absurd hs (by decide)

/-- An event renders to the terminal sentinel literal iff it is `done`. -/
theorem render_eq_sentinel_iff (e : SSEvent) :
    (SSEvent.render e = "data: [DONE]\n\n") ↔ e = SSEvent.done := by
  cases e with
  | done => simp [SSEvent.render]
  | chunkEvent i m c d f cid =>
      constructor
      · intro h; exact absurd h (take7_ne_sentinel _ rfl)
      · intro h; exact absurd h (by simp)
  | errorEvent er msg =>
      constructor
      · intro h; exact absurd h (take7_ne_sentinel _ rfl)
      · intro h; exact absurd h (by simp)

/-- Counting sentinel literals in the rendered output equals counting
`done` events in the structured output. -/
theorem count_sentinel_map (events : List SSEvent) :
    (events.map SSEvent.render).count "data: [DONE]\n\n"
      = events.count SSEvent.done := by
  induction events with
  | nil => rfl
  | cons e rest ih =>
      simp only [List.map_cons, List.count_cons, ih]
      by_cases h : e = SSEvent.done
      · subst h; simp [SSEvent.render]
      · have hr : ¬ (SSEvent.render e = "data: [DONE]\n\n") := fun hc =>
          h ((render_eq_sentinel_iff e).mp hc)
        simp [h, hr]

/-- The chunk-forwarding loop never emits the terminal sentinel. -/
theorem emitLoop_count_done (cid : Option String) (t : Nat)
    (cs : List ChatResponseChunk) :
    (emitLoop cid t cs).count SSEvent.done = 0 := by
  induction cs generalizing t with
  | nil => rfl
  | cons c rest ih => simp [emitLoop, List.count_cons, ih]

/-- Every event emitted by the chunk-forwarding loop is a chunk frame. -/
theorem emitLoop_all_chunk (cid : Option String) (t : Nat)
    (cs : List ChatResponseChunk) :
    ∀ e ∈ emitLoop cid t cs,
      ∃ i m c d f cv, e = SSEvent.chunkEvent i m c d f cv := by
  induction cs generalizing t with
  | nil => intro e he; exact absurd he (by simp [emitLoop])
  | cons c rest ih =>
      intro e he
      rw [emitLoop, List.mem_cons] at he
      rcases he with he | he
      · exact ⟨_, _, _, _, _, _, he⟩
      · exact ih _ e he

/-- `event_gen` output decomposes as sentinel-free events followed by one
terminal sentinel. -/
theorem event_gen_decomp (cid : Option String) (outcome : StreamOutcome) :
    ∃ front, event_gen cid outcome = front ++ [SSEvent.done]
      ∧ front.count SSEvent.done = 0 := by
  cases outcome with
  | success cs => exact ⟨emitLoop cid 0 cs, rfl, emitLoop_count_done cid 0 cs⟩
  | failure cs msg =>
      refine ⟨emitLoop cid 0 cs ++ [SSEvent.errorEvent "Streaming error occurred" (some msg)],
        by simp [event_gen], ?_⟩
      simp [List.count_append, emitLoop_count_done]

/-- Any inner sequence of the shape `sentinel-free ++ [done]` passes
through the timeout wrapper with exactly one sentinel, on both the
completed and the expired path. -/
theorem stream_with_timeout_count (inner : List SSEvent) (budget : Nat)
    (hfront : ∃ front, inner = front ++ [SSEvent.done]
      ∧ front.count SSEvent.done = 0) :
    (stream_with_timeout inner budget).count SSEvent.done = 1 := by
  obtain ⟨front, rfl, hc⟩ := hfront
  unfold stream_with_timeout
  split
  · rename_i hlt
    have hb : budget ≤ front.length := by
      simp only [List.length_append, List.length_cons, List.length_nil] at hlt
      omega
    rw [List.take_append_of_le_length hb]
    have hsub : (front.take budget).count SSEvent.done ≤ front.count SSEvent.done :=
      (List.take_sublist budget front).count_le SSEvent.done
    simp only [List.count_append]
    have h0 : (front.take budget).count SSEvent.done = 0 := by omega
    rw [h0]
    decide
  · simp [List.count_append, hc]

/-- Claim C1: for every streamed response — over every conversation-id
attachment, every provider stream outcome (natural exhaustion or
mid-stream error) and every deadline budget (expired or not) — the
rendered wire event sequence contains exactly one occurrence of the
terminal sentinel literal `data: [DONE]\n\n`. -/
theorem C1_terminal_sentinel_once (cid : Option String) (outcome : StreamOutcome)
    (budget : Nat) :
    ((stream_with_timeout (event_gen cid outcome) budget).map SSEvent.render).count
      "data: [DONE]\n\n" = 1 := by
  rw [count_sentinel_map]
  exact stream_with_timeout_count _ _ (event_gen_decomp cid outcome)

/-- Claim C2, counterexample: at the concrete mid-stream provider error
whose `str(e)` is `"boom"`, the emitted error event carries that raw
exception detail verbatim in its `message` payload field — refuting the
claim that the payload contains no raw exception detail. -/
theorem C2_counterexample_raw_detail :
    SSEvent.errorEvent "Streaming error occurred" (some "boom")
      ∈ event_gen none (StreamOutcome.failure [] "boom") := by
  decide

/-- Claim C2 as amended: on a mid-stream provider error the transcoder
emits — after the already-forwarded chunk frames — exactly one error
event, immediately followed by the terminal sentinel; but the error
payload carries the exception's string representation (`str(e)`) in its
`message` field rather than being free of raw exception detail. -/
theorem C2_amended_error_then_sentinel (cid : Option String)
    (chunks : List ChatResponseChunk) (errMsg : String) :
    ∃ front, event_gen cid (StreamOutcome.failure chunks errMsg)
        = front ++ [SSEvent.errorEvent "Streaming error occurred" (some errMsg), SSEvent.done]
      ∧ ∀ e ∈ front, ∃ i m c d f cv, e = SSEvent.chunkEvent i m c d f cv := by
  exact ⟨emitLoop cid 0 chunks, rfl, emitLoop_all_chunk cid 0 chunks⟩

/-- Claim C3, code divergence: the guard `if conversation_id and tokens == 1`
(routes/messages.py line 129) tests the count of non-empty-delta chunks,
not emission position, contradicting the adjacent comment "Add
conversation_id to first chunk".  First conjunct: after a non-empty first
delta, an empty-delta second chunk still satisfies `tokens == 1` and also
carries `conversation_id`.  Second conjunct: when the first chunk's delta
is empty, the first emitted chunk does not carry `conversation_id` even
though persistence resolved a conversation — it appears on the second
chunk instead. -/
theorem C3_conversation_id_divergence :
    (event_gen (some "c1") (StreamOutcome.success
        [⟨"i1", "m", 5, "hello", none⟩, ⟨"i2", "m", 5, "", some "stop"⟩])
      = [SSEvent.chunkEvent "i1" "m" 5 "hello" none (some "c1"),
         SSEvent.chunkEvent "i2" "m" 5 "" (some "stop") (some "c1"),
         SSEvent.done])
    ∧ (event_gen (some "c1") (StreamOutcome.success
        [⟨"i1", "m", 5, "", none⟩, ⟨"i2", "m", 5, "hi", none⟩])
      = [SSEvent.chunkEvent "i1" "m" 5 "" none none,
         SSEvent.chunkEvent "i2" "m" 5 "hi" none (some "c1"),
         SSEvent.done]) := by
  exact ⟨rfl, rfl⟩

/-! ## Python string / uuid / int primitives used by the routes -/

/-- Left-to-right non-overlapping replacement of a non-empty pattern in a
character list (the semantics of Python `str.replace`), with fuel bounded
by the list length (each step consumes at least one character). -/
def replaceFuel (pat rep : List Char) : Nat → List Char → List Char
  | 0, l => l
  | _ + 1, [] => []
  | fuel + 1, c :: rest =>
      if pat.isPrefixOf (c :: rest) then
        rep ++ replaceFuel pat rep fuel (List.drop pat.length (c :: rest))
      else
        c :: replaceFuel pat rep fuel rest

/-- Python `s.replace(pat, rep)` for the non-empty patterns used in
`uuid.UUID` (`"urn:"`, `"uuid:"`, `"-"`). -/
def pyReplace (s pat rep : String) : String :=
  if pat.data = [] then s
  else ⟨replaceFuel pat.data rep.data s.data.length s.data⟩

/-- Python `s.strip('{}')`: remove leading and trailing characters drawn
from the set `{'{', '}'}`. -/
def stripBraces (s : String) : String :=
  let isBrace : Char → Bool := fun c => c = '\x7b' || c = '\x7d'
  ⟨((s.data.dropWhile isBrace).reverse.dropWhile isBrace).reverse⟩

/-- Whitespace stripped by Python `int(...)`. -/
def isPySpace (c : Char) : Bool :=
  c = ' ' || c = '\t' || c = '\n' || c = '\r' || c = '\x0b' || c = '\x0c'

/-- Hex digit test for Python `int(s, 16)`. -/
def isHexChar (c : Char) : Bool :=
  c.isDigit || ('a' ≤ c && c ≤ 'f') || ('A' ≤ c && c ≤ 'F')

/-- Numeric value of a hex digit. -/
def hexVal (c : Char) : Nat :=
  if c.isDigit then c.toNat - '0'.toNat
  else if 'a' ≤ c && c ≤ 'f' then c.toNat - 'a'.toNat + 10
  else c.toNat - 'A'.toNat + 10

/-- Digit run of Python `int(s, 16)` after sign and base prefix: hex
digits optionally separated by single underscores (PEP 515).  `prevOk`
records whether an underscore may appear here; `hasDigit` whether at
least one digit has been read. -/
def hexDigitsCore : List Char → Bool → Bool → Nat → Option Nat
  | [], prevOk, hasDigit, acc =>
      if prevOk && hasDigit then some acc else none
  | c :: rest, prevOk, hasDigit, acc =>
      if isHexChar c then hexDigitsCore rest true true (acc * 16 + hexVal c)
      else if c = '_' then
        if prevOk then hexDigitsCore rest false hasDigit acc else none
      else none

/-- Model of CPython `int(s, 16)`: surrounding whitespace, an optional
sign, an optional `0x`/`0X` prefix (an underscore may follow it), then
hex digits with single underscores between them.  Returns the signed
value, or `none` where Python raises `ValueError`. -/
def pyInt16 (s : String) : Option Int :=
  let t := (s.data.dropWhile isPySpace).reverse.dropWhile isPySpace |>.reverse
  let (neg, t) : Bool × List Char :=
    match t with
    | '+' :: rest => (false, rest)
    | '-' :: rest => (true, rest)
    | _ => (false, t)
  let (hasBase, t) : Bool × List Char :=
    match t with
    | '0' :: 'x' :: rest => (true, rest)
    | '0' :: 'X' :: rest => (true, rest)
    | _ => (false, t)
  match hexDigitsCore t hasBase false 0 with
  | none => none
  | some n => some (if neg then -(n : Int) else (n : Int))

/-- Model of CPython `uuid.UUID(s)` (the constructor used at
routes/messages.py line 74 and routes/conversations.py line 67): drop
`urn:` and `uuid:`, strip surrounding braces, drop dashes, require
exactly 32 remaining characters, interpret them with `int(hex, 16)`, and
require the value to lie in `[0, 2^128)`.  The result is the UUID's
integer value, which is what UUID equality (and hence the database
primary-key lookup) compares. -/
def pyUUID (s : String) : Option Nat :=
  let h := pyReplace (pyReplace s "urn:" "") "uuid:" ""
  let h := pyReplace (stripBraces h) "-" ""
  if h.length = 32 then
    match pyInt16 h with
    | none => none
    | some v => if 0 ≤ v ∧ v < (2 : Int) ^ 128 then some v.toNat else none
  else none

/-- Hex digit character for a value below 16 (lowercase, as Python's
`str(uuid.UUID(...))` renders). -/
def hexChar (n : Nat) : Char :=
  if n < 10 then Char.ofNat ('0'.toNat + n)
  else Char.ofNat ('a'.toNat + (n - 10))

/-- Lowercase hex rendering of `n`, zero-padded to `width` digits. -/
def hexPad (width n : Nat) : List Char :=
  match width with
  | 0 => []
  | w + 1 => hexPad w (n / 16) ++ [hexChar (n % 16)]

/-- Python `str(conversation_id)` for a UUID with integer value `n`: the
canonical dashed 8-4-4-4-12 lowercase hex form. -/
def uuidStr (n : Nat) : String :=
  let d := hexPad 32 n
  ⟨d.take 8 ++ '-' :: (d.drop 8).take 4 ++ '-' :: (d.drop 12).take 4
    ++ '-' :: (d.drop 16).take 4 ++ '-' :: d.drop 20⟩

/-! ## Data model (models.py) and CRUD (crud.py)

Timestamp fields (`created_at`, `updated_at`) and autogenerated message
ids are elided: no claim under verification mentions them, and message
order is preserved by list order.  A conversation's `id` is the UUID's
integer value. -/

/-- models.py `Conversation` (id, title, owner-key hash). -/
structure Conversation where
  id : Nat
  title : Option String
  api_key_hash : Option String
deriving DecidableEq, Repr

/-- models.py `ChatMessage` (sans autogenerated id and `created_at`). -/
structure StoredMessage where
  conversation_id : Nat
  role : String
  content : String
  model : Option String
  request_id : Option String
  finish_reason : Option String
  prompt_tokens : Option Nat
  completion_tokens : Option Nat
  total_tokens : Option Nat
  elapsed_ms : Option Nat
deriving DecidableEq, Repr

/-- The persisted state: conversation and message relations. -/
structure Db where
  conversations : List Conversation
  messages : List StoredMessage
deriving DecidableEq, Repr

/-- crud.py `get_conversation`: primary-key lookup. -/
def get_conversation (db : Db) (conversation_id : Nat) : Option Conversation :=
  db.conversations.find? (fun c => c.id == conversation_id)

/-- crud.py `create_conversation`: insert a new conversation (its fresh
uuid4 primary key is supplied as `freshId`). -/
def create_conversation (db : Db) (title : Option String)
    (api_key_hash : Option String) (freshId : Nat) : Db × Conversation :=
  let conv : Conversation := ⟨freshId, title, api_key_hash⟩
  ({ db with conversations := db.conversations ++ [conv] }, conv)

/-- crud.py `create_chat_message`: append a message row (the
`updated_at` bump on the owning conversation is elided with the
timestamp fields). -/
def create_chat_message (db : Db) (m : StoredMessage) : Db :=
  { db with messages := db.messages ++ [m] }

/-- crud.py `get_chat_messages`: the messages of one conversation in
insertion order. -/
def get_chat_messages (db : Db) (conversation_id : Nat) : List StoredMessage :=
  db.messages.filter (fun m => m.conversation_id == conversation_id)

/-- crud.py `update_conversation`: retitle an existing conversation. -/
def update_conversation (db : Db) (conversation_id : Nat) (title : String) :
    Option Db :=
  match get_conversation db conversation_id with
  | none => none
  | some _ =>
      some { db with conversations := db.conversations.map (fun c =>
        if c.id == conversation_id then { c with title := some title } else c) }

/-- crud.py `delete_conversation`: remove a conversation; the
`cascade_delete` relationship removes its messages. -/
def delete_conversation (db : Db) (conversation_id : Nat) : Option Db :=
  match get_conversation db conversation_id with
  | none => none
  | some _ =>
      some { conversations := db.conversations.filter (fun c => c.id != conversation_id),
             messages := db.messages.filter (fun m => m.conversation_id != conversation_id) }

/-! ## Conversations routes (api/routes/conversations.py) -/

/-- Outcome of a route: a value, or an `HTTPException(status, detail)`. -/
inductive RouteResult (α : Type) where
  | ok (value : α)
  | httpError (status : Nat) (detail : String)
deriving DecidableEq, Repr

/-- The ownership guard shared by the three conversation routes
(`if conversation.api_key_hash and conversation.api_key_hash != api_key_hash`):
denies iff the stored hash is truthy (non-`None`, non-empty) and differs
from the presented hash. -/
def hash_guard_denies (stored : Option String) (presented : String) : Bool :=
  match stored with
  | none => false
  | some h => h != "" && h != presented

/-- routes/conversations.py `get_conversation_history`: parse the id
(400 on failure), look it up (404 on miss), apply the ownership guard
(403 on mismatch), else return the conversation with its messages.
`api_key_hash` stands for `str(hash(x_api_key or "public"))`. -/
def get_conversation_history (db : Db) (conversation_id : String)
    (api_key_hash : String) : RouteResult (Conversation × List StoredMessage) :=
  match pyUUID conversation_id with
  | none => .httpError 400 "Invalid conversation ID format"
  | some u =>
      match get_conversation db u with
      | none => .httpError 404 "Conversation not found"
      | some conv =>
          if hash_guard_denies conv.api_key_hash api_key_hash then
            .httpError 403 "Access denied to this conversation"
          else
            .ok (conv, get_chat_messages db u)

/-- routes/conversations.py `update_conversation_title`: same guard
sequence, then the CRUD update. -/
def update_conversation_title (db : Db) (conversation_id : String)
    (title : String) (api_key_hash : String) : RouteResult Db :=
  match pyUUID conversation_id with
  | none => .httpError 400 "Invalid conversation ID format"
  | some u =>
      match get_conversation db u with
      | none => .httpError 404 "Conversation not found"
      | some conv =>
          if hash_guard_denies conv.api_key_hash api_key_hash then
            .httpError 403 "Access denied to this conversation"
          else
            match update_conversation db u title with
            | none => .httpError 404 "Conversation not found"
            | some db2 => .ok db2

/-- routes/conversations.py `delete_conversation_endpoint`: same guard
sequence, then the cascading delete. -/
def delete_conversation_endpoint (db : Db) (conversation_id : String)
    (api_key_hash : String) : RouteResult Db :=
  match pyUUID conversation_id with
  | none => .httpError 400 "Invalid conversation ID format"
  | some u =>
      match get_conversation db u with
      | none => .httpError 404 "Conversation not found"
      | some conv =>
          if hash_guard_denies conv.api_key_hash api_key_hash then
            .httpError 403 "Access denied to this conversation"
          else
            match delete_conversation db u with
            | none => .httpError 404 "Conversation not found"
            | some db2 => .ok db2

/-! ## Schemas (schemas.py), provider resolution (services/router.py),
idempotency cache (utils/idempotency.py) -/

/-- schemas.py `MessagesRequest`.  `temperature` and `max_tokens` are
passed through unread to the opaque provider and are elided. -/
structure MessagesRequest where
  model : String
  messages : List Message
  stream : Bool
  conversation_id : Option String
deriving DecidableEq, Repr

/-- schemas.py `MessagesResponse` after `model_dump()` and the optional
`body["conversation_id"] = str(conversation_id)` overwrite. -/
structure MessagesResponse where
  id : String
  model : String
  created : Nat
  content : String
  finish_reason : Option String
  usage : Option Usage
  conversation_id : Option String
deriving DecidableEq, Repr

/-- Python `s.startswith(pre)` (kernel-computable formulation). -/
def pyStartsWith (s pre : String) : Bool :=
  pre.data.isPrefixOf s.data

/-- services/router.py `resolve_provider`: normalize the model id
(prefix `openai:` when absent).  The provider handle in the returned
pair is always a fresh `OpenAIProvider()` and is opaque here. -/
def resolve_provider (model : String) : String :=
  if pyStartsWith model "openai:" then model else "openai:" ++ model

/-- Python truthiness of an optional string (`None` and `""` falsy). -/
def pyTruthy (o : Option String) : Bool :=
  match o with
  | none => false
  | some s => s != ""

/-- One idempotency-cache entry: prefixed key, store time, cached body. -/
structure CacheEntry where
  key : String
  storedAt : Nat
  value : MessagesResponse
deriving DecidableEq, Repr

/-- The idempotency cache (utils/idempotency.py in-memory TTL variant). -/
abbrev Cache := List CacheEntry

/-- utils/idempotency.py `get_cached_response`: look the prefixed key up;
an entry is visible until its TTL has elapsed. -/
def get_cached_response (cache : Cache) (ttl now : Nat) (key : String) :
    Option MessagesResponse :=
  match cache.find? (fun e => e.key == "idemp:" ++ key) with
  | some e => if now < e.storedAt + ttl then some e.value else none
  | none => none

/-- utils/idempotency.py `set_cached_response`: store under the prefixed
key, replacing any previous entry. -/
def set_cached_response (cache : Cache) (now : Nat) (key : String)
    (v : MessagesResponse) : Cache :=
  ⟨"idemp:" ++ key, now, v⟩ :: cache.filter (fun e => e.key != "idemp:" ++ key)

/-! ## The canonical handler (routes/messages.py `_canonical_handler`)

Inputs the embedding makes explicit:
  * `api_key_hash` stands for the `str(hash(api_key))` the handler
    computes (Python's salted string hash is opaque);
  * `hasSession` is whether a database session was passed (the canonical
    endpoint passes one; the OpenAI-compat shim passes `None`);
  * `HandlerEnv` carries what the outside world would do: the provider's
    buffered result or streamed outcome, the fresh uuid4 for a created
    conversation, the clock, the stream deadline budget, and whether each
    kind of persistence call would raise.
The per-key rate limiter is a pure suspension point (it never rejects)
and admits the single request being modelled. -/

/-- What the surrounding world does during one request. -/
structure HandlerEnv where
  providerFull : Except String ChatResponseFull
  streamOutcome : StreamOutcome
  freshConvId : Nat
  now : Nat
  budget : Nat
  elapsedMs : Nat
  createConvFails : Bool
  incomingFails : Bool
  outgoingFails : Bool

/-- The client-visible result of the handler: a JSON body, a streamed
event sequence, or an uncaught exception (HTTP 500 at the framework). -/
inductive HandlerOutcome where
  | json (body : MessagesResponse)
  | streamed (events : List SSEvent)
  | raised (err : String)
deriving DecidableEq, Repr

/-- Handler result: client-visible outcome plus the resulting database
and cache and the side-effect counts the claims talk about. -/
structure HandlerResult where
  outcome : HandlerOutcome
  db : Db
  cache : Cache
  providerCalls : Nat
  cacheLookups : Nat
  usageReports : Nat
deriving DecidableEq, Repr

/-- The idempotency consultation (routes/messages.py lines 51-54): only
for a truthy key on a non-streamed request. -/
def idem_lookup (cache : Cache) (ttl now : Nat) (idem_key : Option String)
    (stream : Bool) : Option MessagesResponse :=
  match idem_key with
  | some k => if k != "" && !stream then get_cached_response cache ttl now k else none
  | none => none

/-- Conversation resolution (routes/messages.py lines 72-77): a truthy
`conversation_id` is parsed as a UUID (parse failure is swallowed) and
looked up; no ownership check is performed here. -/
def resolve_conversation (db : Db) (conversation_id : Option String) :
    Option Conversation :=
  match conversation_id with
  | none => none
  | some s =>
      if s == "" then none
      else
        match pyUUID s with
        | none => none
        | some u => get_conversation db u

/-- Title of a new conversation (routes/messages.py lines 81-87): the
first user-role message's content, truncated to 100 characters plus an
ellipsis when longer. -/
def compute_title (messages : List Message) : Option String :=
  match messages.find? (fun m => m.role == "user") with
  | none => none
  | some m =>
      some (if 100 < m.content.length then m.content.take 100 ++ "..." else m.content)

/-- The row stored for one incoming request message
(routes/messages.py lines 99-107). -/
def incoming_stored (cid : Nat) (normalized request_id : String)
    (m : Message) : StoredMessage :=
  ⟨cid, m.role, m.content, some normalized, some request_id,
    none, none, none, none, none⟩

/-- Recording of the incoming messages under a conversation.  These
`create_chat_message` calls are not wrapped in any try/except: a failure
is modelled as raising at the first call, leaving the rows unwritten. -/
def record_incoming (payload : MessagesRequest) (normalized request_id : String)
    (cid : Nat) (db : Db) (env : HandlerEnv) : Db × Except String (Option Nat) :=
  if env.incomingFails && !payload.messages.isEmpty then
    (db, .error "PersistenceError")
  else
    (payload.messages.foldl
      (fun d m => create_chat_message d (incoming_stored cid normalized request_id m)) db,
     .ok (some cid))

/-- The persistence prelude (routes/messages.py lines 65-107): resolve or
create the conversation and record the incoming messages.  Neither
`create_conversation` nor these `create_chat_message` calls are
protected, so their failures propagate; a created conversation is
already committed when a later incoming write fails. -/
def persistence_prelude (payload : MessagesRequest)
    (api_key_hash request_id normalized : String) (hasSession : Bool)
    (db : Db) (env : HandlerEnv) : Db × Except String (Option Nat) :=
  if hasSession then
    match resolve_conversation db payload.conversation_id with
    | some conv => record_incoming payload normalized request_id conv.id db env
    | none =>
        if env.createConvFails then (db, .error "PersistenceError")
        else
          let created := create_conversation db (compute_title payload.messages)
            (some api_key_hash) env.freshConvId
          record_incoming payload normalized request_id created.2.id created.1 env
  else (db, .ok none)

/-- `full_content` accumulation in `event_gen` (lines 117-119): the
concatenation of the non-empty deltas of the consumed chunks. -/
def accumContent (cs : List ChatResponseChunk) : String :=
  cs.foldl (fun acc c => if c.delta != "" then acc ++ c.delta else acc) ""

/-- The `finally` block's background persistence of the assistant message
(routes/messages.py lines 145-163): runs on every exit path over the
chunks consumed before termination (`budget` also bounds consumption on
deadline expiry), writes only when a conversation id exists and content
was accumulated, and swallows its own failure. -/
def stream_background_persist (conversation_id : Option Nat)
    (outcome : StreamOutcome) (budget : Nat) (normalized request_id : String)
    (elapsedMs : Nat) (outgoingFails : Bool) (db : Db) : Db :=
  let consumed := outcome.chunks.take budget
  let full_content := accumContent consumed
  match conversation_id with
  | some cid =>
      if full_content != "" && !outgoingFails then
        create_chat_message db
          ⟨cid, "assistant", full_content,
            some ((consumed.getLast?).elim normalized (fun c => c.model)),
            some request_id,
            (consumed.getLast?).bind (fun c => c.finish_reason),
            none, none, none, some elapsedMs⟩
      else db
  | none => db

/-- The assistant row stored on the buffered path
(routes/messages.py lines 196-208). -/
def outgoing_stored_full (cid : Nat) (res : ChatResponseFull)
    (request_id : String) (elapsedMs : Nat) : StoredMessage :=
  ⟨cid, "assistant", res.content, some res.model, some request_id,
    res.finish_reason,
    res.usage.bind (fun u => u.prompt_tokens),
    res.usage.bind (fun u => u.completion_tokens),
    res.usage.bind (fun u => u.total_tokens),
    some elapsedMs⟩

/-- Tail of the buffered path (routes/messages.py lines 210-235): build
the body, overwrite `conversation_id` when present, cache it under a
truthy idempotency key, report usage, return the JSON body. -/
def nonstream_result (idem_key : Option String) (now : Nat) (cache : Cache)
    (lookups : Nat) (db2 : Db) (res : ChatResponseFull)
    (conversation_id : Option Nat) : HandlerResult :=
  let body : MessagesResponse := ⟨res.id, res.model, res.created, res.content,
    res.finish_reason, res.usage, conversation_id.map uuidStr⟩
  let cache2 :=
    match idem_key with
    | some k => if k != "" then set_cached_response cache now k body else cache
    | none => cache
  { outcome := .json body, db := db2, cache := cache2,
    providerCalls := 1, cacheLookups := lookups, usageReports := 1 }

/-- routes/messages.py `_canonical_handler`. -/
def canonical_handler (ttl : Nat) (payload : MessagesRequest)
    (api_key_hash : String) (idem_key : Option String) (request_id : String)
    (hasSession : Bool) (db : Db) (cache : Cache) (env : HandlerEnv) :
    HandlerResult :=
  let lookups := if pyTruthy idem_key && !payload.stream then 1 else 0
  match idem_lookup cache ttl env.now idem_key payload.stream with
  | some cached =>
      { outcome := .json cached, db := db, cache := cache,
        providerCalls := 0, cacheLookups := lookups, usageReports := 0 }
  | none =>
      let normalized := resolve_provider payload.model
      let pre := persistence_prelude payload api_key_hash request_id normalized
        hasSession db env
      match pre.2 with
      | .error e =>
          { outcome := .raised e, db := pre.1, cache := cache,
            providerCalls := 0, cacheLookups := lookups, usageReports := 0 }
      | .ok conversation_id =>
          if payload.stream then
            let events := stream_with_timeout
              (event_gen (conversation_id.map uuidStr) env.streamOutcome) env.budget
            let db2 := stream_background_persist conversation_id env.streamOutcome
              env.budget normalized request_id env.elapsedMs env.outgoingFails pre.1
            { outcome := .streamed events, db := db2, cache := cache,
              providerCalls := 1, cacheLookups := lookups, usageReports := 1 }
          else
            match env.providerFull with
            | .error e =>
                { outcome := .raised e, db := pre.1, cache := cache,
                  providerCalls := 1, cacheLookups := lookups, usageReports := 0 }
            | .ok res =>
                match conversation_id with
                | some cid =>
                    if env.outgoingFails then
                      { outcome := .raised "PersistenceError", db := pre.1,
                        cache := cache, providerCalls := 1,
                        cacheLookups := lookups, usageReports := 0 }
                    else
                      nonstream_result idem_key env.now cache lookups
                        (create_chat_message pre.1
                          (outgoing_stored_full cid res request_id env.elapsedMs))
                        res conversation_id
                | none =>
                    nonstream_result idem_key env.now cache lookups pre.1 res
                      conversation_id

/-! ## Structural lemmas about the handler -/

/-- Folding `create_chat_message` over a message list appends the mapped
rows and touches nothing else. -/
theorem foldl_create_messages (f : Message → StoredMessage) (msgs : List Message)
    (db : Db) :
    msgs.foldl (fun d m => create_chat_message d (f m)) db
      = ⟨db.conversations, db.messages ++ msgs.map f⟩ := by
  induction msgs generalizing db with
  | nil => simp
  | cons m rest ih =>
      rw [List.foldl_cons, ih (create_chat_message db (f m))]
      simp [create_chat_message, List.append_assoc]

/-- `record_incoming` when the incoming writes succeed (or there is
nothing to write): all rows appended, conversation id returned. -/
theorem record_incoming_ok (payload : MessagesRequest) (norm rid : String)
    (cid : Nat) (db : Db) (env : HandlerEnv)
    (h : env.incomingFails = false ∨ payload.messages = []) :
    record_incoming payload norm rid cid db env
      = (⟨db.conversations, db.messages ++ payload.messages.map (incoming_stored cid norm rid)⟩,
         .ok (some cid)) := by
  unfold record_incoming
  rcases h with h | h
  · simp [h, foldl_create_messages]
  · simp [h, foldl_create_messages]

/-- `record_incoming` when the first incoming write raises: nothing is
appended and the exception propagates. -/
theorem record_incoming_fail (payload : MessagesRequest) (norm rid : String)
    (cid : Nat) (db : Db) (env : HandlerEnv)
    (h1 : env.incomingFails = true) (h2 : payload.messages ≠ []) :
    record_incoming payload norm rid cid db env = (db, .error "PersistenceError") := by
  unfold record_incoming
  simp [h1, h2]

/-- Prelude when the payload's conversation reference resolves: incoming
rows are recorded under the existing conversation, with no ownership
check anywhere on the path. -/
theorem prelude_resolved (payload : MessagesRequest) (a rid norm : String)
    (db : Db) (env : HandlerEnv) (conv : Conversation)
    (hres : resolve_conversation db payload.conversation_id = some conv) :
    persistence_prelude payload a rid norm true db env
      = record_incoming payload norm rid conv.id db env := by
  simp [persistence_prelude, hres]

/-- Prelude when no conversation resolves and creation succeeds: the new
conversation (fresh id, computed title, requester's hash) is committed
first, then the incoming rows are recorded under it. -/
theorem prelude_create (payload : MessagesRequest) (a rid norm : String)
    (db : Db) (env : HandlerEnv)
    (hres : resolve_conversation db payload.conversation_id = none)
    (hcc : env.createConvFails = false) :
    persistence_prelude payload a rid norm true db env
      = record_incoming payload norm rid env.freshConvId
          ⟨db.conversations ++ [⟨env.freshConvId, compute_title payload.messages, some a⟩],
            db.messages⟩ env := by
  simp [persistence_prelude, hres, hcc, create_conversation]

/-- Prelude without a session: no persistence at all. -/
theorem prelude_nosession (payload : MessagesRequest) (a rid norm : String)
    (db : Db) (env : HandlerEnv) :
    persistence_prelude payload a rid norm false db env = (db, .ok none) := rfl

/-- The background stream persistence never touches the conversations
relation. -/
theorem stream_bg_conversations (cid : Option Nat) (outcome : StreamOutcome)
    (budget : Nat) (n r : String) (e : Nat) (fails : Bool) (db : Db) :
    (stream_background_persist cid outcome budget n r e fails db).conversations
      = db.conversations := by
  cases cid with
  | none => rfl
  | some c =>
      unfold stream_background_persist
      dsimp only
      split
      · rfl
      · rfl

/-- `record_incoming` never touches the conversations relation. -/
theorem record_incoming_conversations (p : MessagesRequest) (n r : String)
    (cid : Nat) (db : Db) (env : HandlerEnv) :
    ((record_incoming p n r cid db env).1).conversations = db.conversations := by
  unfold record_incoming
  split
  · rfl
  · simp [foldl_create_messages]

/-- An idempotency-cache hit short-circuits the whole handler: the cached
body is returned and nothing else happens. -/
theorem handler_cache_hit (ttl : Nat) (payload : MessagesRequest)
    (a k rid : String) (hs : Bool) (db : Db) (cache : Cache) (env : HandlerEnv)
    (b : MessagesResponse)
    (hstream : payload.stream = false) (hk : k ≠ "")
    (hhit : get_cached_response cache ttl env.now k = some b) :
    canonical_handler ttl payload a (some k) rid hs db cache env
      = ⟨.json b, db, cache, 0, 1, 0⟩ := by
  have hb : (k != "") = true := bne_iff_ne.mpr hk
  simp [canonical_handler, idem_lookup, hstream, hb, hhit, pyTruthy]

/-! ## Shared concrete fixtures for witnesses and counterexamples -/

/-- A one-message user payload. -/
def exMsg : Message := ⟨"user", "hi"⟩

/-- A successful buffered provider result. -/
def exRes : ChatResponseFull := ⟨"r1", "openai:gpt-4o-mini", 10, "ok", some "stop", none⟩

/-- The body the handler would build from `exRes` with no conversation. -/
def exBody : MessagesResponse := ⟨"r1", "openai:gpt-4o-mini", 10, "ok", some "stop", none, none⟩

/-- A benign environment: provider succeeds, no persistence failure. -/
def exEnv : HandlerEnv := ⟨.ok exRes, .success [], 7, 100, 300, 5, false, false, false⟩

/-- A non-streamed one-message request with no conversation reference. -/
def exPayload : MessagesRequest := ⟨"gpt-4o-mini", [exMsg], false, none⟩

/-- Claim C9: a non-streamed request whose idempotency key hits the cache
returns the cached body and has no other effect: database and cache are
unchanged, the provider is neither resolved nor invoked, no message is
persisted, and no usage event is reported (the full result record equals
the pure cache-hit record). -/
theorem C9_cache_hit_no_side_effects (ttl : Nat) (payload : MessagesRequest)
    (a k rid : String) (hs : Bool) (db : Db) (cache : Cache) (env : HandlerEnv)
    (b : MessagesResponse)
    (hstream : payload.stream = false) (hk : k ≠ "")
    (hhit : get_cached_response cache ttl env.now k = some b) :
    canonical_handler ttl payload a (some k) rid hs db cache env
      = ⟨.json b, db, cache, 0, 1, 0⟩ :=
  handler_cache_hit ttl payload a k rid hs db cache env b hstream hk hhit

/-- Witness for C9 at a concrete cached request. -/
theorem C9_witness :
    exPayload.stream = false ∧ ("K" : String) ≠ ""
      ∧ get_cached_response [⟨"idemp:K", 50, exBody⟩] 100 exEnv.now "K" = some exBody
      ∧ canonical_handler 100 exPayload "H" (some "K") "rid" true ⟨[], []⟩
          [⟨"idemp:K", 50, exBody⟩] exEnv
        = ⟨.json exBody, ⟨[], []⟩, [⟨"idemp:K", 50, exBody⟩], 0, 1, 0⟩ :=
  ⟨rfl, by decide, by decide,
    C9_cache_hit_no_side_effects 100 exPayload "H" "K" "rid" true ⟨[], []⟩
      [⟨"idemp:K", 50, exBody⟩] exEnv exBody rfl (by decide) (by decide)⟩

/-- The background stream persistence only ever appends messages. -/
theorem stream_bg_messages (cid : Option Nat) (outcome : StreamOutcome)
    (budget : Nat) (n r : String) (e : Nat) (fails : Bool) (db : Db) :
    ∃ rest, (stream_background_persist cid outcome budget n r e fails db).messages
      = db.messages ++ rest := by
  cases cid with
  | none => exact ⟨[], by simp [stream_background_persist]⟩
  | some c =>
      unfold stream_background_persist
      dsimp only
      split
      · exact ⟨_, rfl⟩
      · exact ⟨[], by simp⟩

/-- Past a cache miss, the handler's final conversations relation is
whatever the persistence prelude left (no later step touches it). -/
theorem handler_conversations_after (ttl : Nat) (payload : MessagesRequest)
    (a : String) (ik : Option String) (rid : String) (hs : Bool) (db : Db)
    (cache : Cache) (env : HandlerEnv)
    (hmiss : idem_lookup cache ttl env.now ik payload.stream = none) :
    (canonical_handler ttl payload a ik rid hs db cache env).db.conversations
      = ((persistence_prelude payload a rid (resolve_provider payload.model) hs db env).1).conversations := by
  simp only [canonical_handler, hmiss]
  split
  · rfl
  · split
    · simp [stream_bg_conversations]
    · split
      · rfl
      · split
        · split
          · rfl
          · simp [nonstream_result, create_chat_message]
        · simp [nonstream_result]

/-- Past a cache miss, the handler only ever appends to the messages the
persistence prelude left. -/
theorem handler_messages_after (ttl : Nat) (payload : MessagesRequest)
    (a : String) (ik : Option String) (rid : String) (hs : Bool) (db : Db)
    (cache : Cache) (env : HandlerEnv)
    (hmiss : idem_lookup cache ttl env.now ik payload.stream = none) :
    ∃ rest, (canonical_handler ttl payload a ik rid hs db cache env).db.messages
      = ((persistence_prelude payload a rid (resolve_provider payload.model) hs db env).1).messages ++ rest := by
  simp only [canonical_handler, hmiss]
  split
  · exact ⟨[], by simp⟩
  · split
    · simpa using stream_bg_messages _ env.streamOutcome env.budget _ rid env.elapsedMs env.outgoingFails _
    · split
      · exact ⟨[], by simp⟩
      · split
        · split
          · exact ⟨[], by simp⟩
          · rename_i res hres1 convid cid heq hout
            exact ⟨[outgoing_stored_full cid res rid env.elapsedMs],
              by simp [nonstream_result, create_chat_message]⟩
        · exact ⟨[], by simp [nonstream_result]⟩

/-- A conversation reference that fails to parse or to resolve leaves the
handler's resolution empty. -/
theorem resolve_none_of_bad (db : Db) (s : String)
    (hbad : pyUUID s = none ∨ ∀ u, pyUUID s = some u → get_conversation db u = none) :
    resolve_conversation db (some s) = none := by
  unfold resolve_conversation
  by_cases he : (s == "") = true
  · simp [he]
  · simp only [he, if_false, Bool.false_eq_true]
    cases hu : pyUUID s with
    | none => rfl
    | some u =>
        rcases hbad with hbad | hbad
        · rw [hbad] at hu; exact absurd hu (by simp)
        · simpa using hbad u hu

/-- The handler behaves identically whether the payload carries an
unresolvable conversation reference or none at all. -/
theorem handler_conversation_ref_irrelevant (ttl : Nat) (payload : MessagesRequest)
    (a : String) (ik : Option String) (rid : String) (hs : Bool) (db : Db)
    (cache : Cache) (env : HandlerEnv)
    (hres : resolve_conversation db payload.conversation_id = none) :
    canonical_handler ttl payload a ik rid hs db cache env
      = canonical_handler ttl { payload with conversation_id := none } a ik rid hs
          db cache env := by
  have h2 : persistence_prelude payload a rid (resolve_provider payload.model) hs db env
      = persistence_prelude { payload with conversation_id := none } a rid
          (resolve_provider payload.model) hs db env := by
    cases hs with
    | false => rfl
    | true =>
        unfold persistence_prelude
        rw [hres]
        rfl
  simp only [canonical_handler]
  rw [h2]

/-- Claim C10: a canonical request whose `conversation_id` is not a valid
UUID, or names no existing conversation, is not rejected: the handler
behaves exactly as if no conversation reference had been given — and
(when the idempotency cache does not short-circuit and conversation
creation succeeds) it creates one fresh conversation and records the
request's messages under the fresh conversation's id. -/
theorem C10_invalid_or_unknown_conversation (ttl : Nat) (payload : MessagesRequest)
    (a : String) (ik : Option String) (rid : String) (db : Db) (cache : Cache)
    (env : HandlerEnv) (s : String)
    (hcid : payload.conversation_id = some s)
    (hbad : pyUUID s = none ∨ ∀ u, pyUUID s = some u → get_conversation db u = none) :
    canonical_handler ttl payload a ik rid true db cache env
      = canonical_handler ttl { payload with conversation_id := none } a ik rid true
          db cache env
    ∧ (idem_lookup cache ttl env.now ik payload.stream = none →
       env.createConvFails = false →
       (canonical_handler ttl payload a ik rid true db cache env).db.conversations
         = db.conversations
             ++ [⟨env.freshConvId, compute_title payload.messages, some a⟩]
       ∧ (env.incomingFails = false →
          ∃ rest, (canonical_handler ttl payload a ik rid true db cache env).db.messages
            = (db.messages ++ payload.messages.map
                (incoming_stored env.freshConvId (resolve_provider payload.model) rid))
              ++ rest)) := by
  have hres : resolve_conversation db payload.conversation_id = none := by
    rw [hcid]; exact resolve_none_of_bad db s hbad
  refine ⟨handler_conversation_ref_irrelevant ttl payload a ik rid true db cache env hres,
    fun hmiss hcc => ⟨?_, fun hinc => ?_⟩⟩
  · rw [handler_conversations_after ttl payload a ik rid true db cache env hmiss,
      prelude_create payload a rid (resolve_provider payload.model) db env hres hcc,
      record_incoming_conversations]
  · obtain ⟨rest, hrest⟩ :=
      handler_messages_after ttl payload a ik rid true db cache env hmiss
    refine ⟨rest, ?_⟩
    rw [hrest, prelude_create payload a rid (resolve_provider payload.model) db env hres hcc,
      record_incoming_ok payload (resolve_provider payload.model) rid env.freshConvId
        _ env (Or.inl hinc)]

/-- Witness for C10 at a concrete malformed conversation id. -/
theorem C10_witness :
    (pyUUID "not-a-uuid" = none)
    ∧ (canonical_handler 60 ⟨"gpt-4o-mini", [exMsg], false, some "not-a-uuid"⟩ "H" none
        "rid" true ⟨[], []⟩ [] exEnv
      = canonical_handler 60 ⟨"gpt-4o-mini", [exMsg], false, none⟩ "H" none
        "rid" true ⟨[], []⟩ [] exEnv)
    ∧ ((canonical_handler 60 ⟨"gpt-4o-mini", [exMsg], false, some "not-a-uuid"⟩ "H" none
        "rid" true ⟨[], []⟩ [] exEnv).db.conversations
      = [⟨7, some "hi", some "H"⟩])
    ∧ (∃ rest, (canonical_handler 60 ⟨"gpt-4o-mini", [exMsg], false, some "not-a-uuid"⟩
        "H" none "rid" true ⟨[], []⟩ [] exEnv).db.messages
      = [incoming_stored 7 "openai:gpt-4o-mini" "rid" exMsg] ++ rest) := by
  have h := C10_invalid_or_unknown_conversation 60
    ⟨"gpt-4o-mini", [exMsg], false, some "not-a-uuid"⟩ "H" none "rid" ⟨[], []⟩ [] exEnv
    "not-a-uuid" rfl (Or.inl (by decide))
  exact ⟨by decide, h.1, (h.2 rfl rfl).1,
    ⟨[outgoing_stored_full 7 exRes "rid" 5], by decide⟩⟩

/-- Claim C8: whenever the handler creates a new conversation (no cached
short-circuit, no resolvable conversation reference, creation succeeds)
and the request has a first user-role message, the stored title is that
message's content — verbatim when its length is at most 100 characters,
else its first 100 characters followed by the ellipsis marker. -/
theorem C8_new_conversation_title (ttl : Nat) (payload : MessagesRequest)
    (a : String) (ik : Option String) (rid : String) (db : Db) (cache : Cache)
    (env : HandlerEnv) (m : Message)
    (hmiss : idem_lookup cache ttl env.now ik payload.stream = none)
    (hres : resolve_conversation db payload.conversation_id = none)
    (hcc : env.createConvFails = false)
    (hm : payload.messages.find? (fun x => x.role == "user") = some m) :
    (canonical_handler ttl payload a ik rid true db cache env).db.conversations
      = db.conversations ++ [⟨env.freshConvId,
          some (if 100 < m.content.length then m.content.take 100 ++ "..." else m.content),
          some a⟩] := by
  rw [handler_conversations_after ttl payload a ik rid true db cache env hmiss,
    prelude_create payload a rid (resolve_provider payload.model) db env hres hcc,
    record_incoming_conversations]
  unfold compute_title
  rw [hm]

/-- A user message 150 characters long, for exercising truncation. -/
def longMsg : Message := ⟨"user", ⟨List.replicate 150 'a'⟩⟩

set_option maxRecDepth 8000 in
/-- Witness for C8 at a concrete over-long first user message. -/
theorem C8_witness :
    (idem_lookup [] 60 exEnv.now none false = none)
    ∧ (resolve_conversation ⟨[], []⟩ none = none)
    ∧ ([longMsg].find? (fun x => x.role == "user") = some longMsg)
    ∧ ((canonical_handler 60 ⟨"gpt-4o-mini", [longMsg], false, none⟩ "H" none "rid"
          true ⟨[], []⟩ [] exEnv).db.conversations
        = [⟨7, some (⟨List.replicate 100 'a'⟩ ++ "..."), some "H"⟩]) := by
  refine ⟨rfl, rfl, by decide, ?_⟩
  exact C8_new_conversation_title 60 ⟨"gpt-4o-mini", [longMsg], false, none⟩ "H" none
    "rid" ⟨[], []⟩ [] exEnv longMsg rfl rfl rfl (by decide)

/-- Claim C4, counterexample: conversation 5 stores the non-empty owner
hash `"H1"`; a request presenting hash `"H2"` — which the conversations
endpoints' guard would deny — nevertheless resolves it through the
canonical messages handler and appends two messages (the incoming user
message and the assistant reply) to it, refuting "cannot mutate it
(including appending messages to it)". -/
theorem C4_counterexample :
    hash_guard_denies (some "H1") "H2" = true
    ∧ (canonical_handler 60 ⟨"gpt-4o-mini", [exMsg], false, some (uuidStr 5)⟩ "H2" none
        "rid" true ⟨[⟨5, some "t", some "H1"⟩], []⟩ [] exEnv).db.messages.map
          (fun m => m.conversation_id) = [5, 5] := by
  exact ⟨rfl, by decide⟩

/-- Claim C4 as amended: a request whose key hash differs from a
conversation's stored non-empty hash is denied read, update and delete
access through the conversations endpoints (HTTP 403); but the canonical
messages handler resolves the same conversation with no ownership check
and records the request's messages under it. -/
theorem C4_amended (db : Db) (s : String) (u : Nat) (conv : Conversation)
    (h2 t : String)
    (hu : pyUUID s = some u)
    (hfind : get_conversation db u = some conv)
    (hden : hash_guard_denies conv.api_key_hash h2 = true) :
    get_conversation_history db s h2 = .httpError 403 "Access denied to this conversation"
    ∧ update_conversation_title db s t h2
        = .httpError 403 "Access denied to this conversation"
    ∧ delete_conversation_endpoint db s h2
        = .httpError 403 "Access denied to this conversation"
    ∧ resolve_conversation db (some s) = some conv
    ∧ (∀ (payload : MessagesRequest) (rid norm : String) (env : HandlerEnv),
        payload.conversation_id = some s → env.incomingFails = false →
        persistence_prelude payload h2 rid norm true db env
          = (⟨db.conversations,
              db.messages ++ payload.messages.map (incoming_stored conv.id norm rid)⟩,
             Except.ok (some conv.id))) := by
  have hs : s ≠ "" := by
    intro h
    rw [h, show pyUUID "" = none by decide] at hu
    exact Option.noConfusion hu
  have hsb : (s == "") = false := beq_eq_false_iff_ne.mpr hs
  have hres : resolve_conversation db (some s) = some conv := by
    simp [resolve_conversation, hsb, hu, hfind]
  refine ⟨?_, ?_, ?_, hres, ?_⟩
  · simp [get_conversation_history, hu, hfind, hden]
  · simp [update_conversation_title, hu, hfind, hden]
  · simp [delete_conversation_endpoint, hu, hfind, hden]
  · intro payload rid norm env hcid hinc
    have hres2 : resolve_conversation db payload.conversation_id = some conv := by
      rw [hcid]; exact hres
    rw [prelude_resolved payload h2 rid norm db env conv hres2,
      record_incoming_ok payload norm rid conv.id db env (Or.inl hinc)]

/-- Witness for C4 at a concrete foreign conversation. -/
theorem C4_witness :
    (pyUUID (uuidStr 5) = some 5)
    ∧ (get_conversation ⟨[⟨5, some "t", some "H1"⟩], []⟩ 5 = some ⟨5, some "t", some "H1"⟩)
    ∧ (hash_guard_denies (some "H1") "H2" = true)
    ∧ get_conversation_history ⟨[⟨5, some "t", some "H1"⟩], []⟩ (uuidStr 5) "H2"
        = .httpError 403 "Access denied to this conversation"
    ∧ update_conversation_title ⟨[⟨5, some "t", some "H1"⟩], []⟩ (uuidStr 5) "t2" "H2"
        = .httpError 403 "Access denied to this conversation"
    ∧ delete_conversation_endpoint ⟨[⟨5, some "t", some "H1"⟩], []⟩ (uuidStr 5) "H2"
        = .httpError 403 "Access denied to this conversation"
    ∧ resolve_conversation ⟨[⟨5, some "t", some "H1"⟩], []⟩ (some (uuidStr 5))
        = some ⟨5, some "t", some "H1"⟩ := by
  have h := C4_amended ⟨[⟨5, some "t", some "H1"⟩], []⟩ (uuidStr 5) 5
    ⟨5, some "t", some "H1"⟩ "H2" "t2" (by decide) rfl rfl
  exact ⟨by decide, rfl, rfl, h.1, h.2.1, h.2.2.1, h.2.2.2.1⟩

/-- The streamed handler's client-visible outcome, in closed form: cached
body, propagated prelude exception, or the transcoded event sequence —
which never mentions the outgoing-persistence outcome. -/
theorem handler_stream_outcome (ttl : Nat) (payload : MessagesRequest)
    (a : String) (ik : Option String) (rid : String) (hs : Bool) (db : Db)
    (cache : Cache) (env : HandlerEnv)
    (hstream : payload.stream = true) :
    (canonical_handler ttl payload a ik rid hs db cache env).outcome
      = match idem_lookup cache ttl env.now ik payload.stream with
        | some cached => .json cached
        | none =>
            match (persistence_prelude payload a rid (resolve_provider payload.model)
                hs db env).2 with
            | .error e => .raised e
            | .ok conversation_id =>
                .streamed (stream_with_timeout
                  (event_gen (conversation_id.map uuidStr) env.streamOutcome)
                  env.budget) := by
  cases h1 : idem_lookup cache ttl env.now ik payload.stream with
  | some cached =>
      rw [hstream] at h1
      simp [canonical_handler, h1, hstream]
  | none =>
      rw [hstream] at h1
      cases h2 : (persistence_prelude payload a rid (resolve_provider payload.model)
          hs db env).2 with
      | error e => simp [canonical_handler, h1, h2, hstream]
      | ok cid => simp [canonical_handler, h1, h2, hstream]

/-- Claim C5, counterexample: persistence failures do surface.  First
two conjuncts: an outgoing-persistence failure on a buffered request
escapes the handler as an uncaught exception, where the same request
with persistence healthy returns a JSON body — the client-visible
response is altered.  Third conjunct: a conversation-creation failure
aborts even a streamed request (no event sequence is ever produced).
Fourth conjunct: an incoming-message write failure aborts a buffered
request. -/
theorem C5_counterexample :
    ((canonical_handler 60 exPayload "H" none "rid" true ⟨[], []⟩ []
        { exEnv with outgoingFails := true }).outcome = .raised "PersistenceError")
    ∧ ((canonical_handler 60 exPayload "H" none "rid" true ⟨[], []⟩ [] exEnv).outcome
        = .json ⟨"r1", "openai:gpt-4o-mini", 10, "ok", some "stop", none,
            some (uuidStr 7)⟩)
    ∧ ((canonical_handler 60 ⟨"gpt-4o-mini", [exMsg], true, none⟩ "H" none "rid" true
        ⟨[], []⟩ [] { exEnv with createConvFails := true }).outcome
        = .raised "PersistenceError")
    ∧ ((canonical_handler 60 exPayload "H" none "rid" true ⟨[], []⟩ []
        { exEnv with incomingFails := true }).outcome = .raised "PersistenceError") := by
  exact ⟨by decide, by decide, by decide, by decide⟩

/-- Claim C5 as amended: only the streamed path's outgoing persistence is
protected — for streamed responses the client-visible outcome is
independent of whether the background assistant-message write fails
(first conjunct); on the buffered path a failing outgoing write escapes
as an uncaught exception and aborts the response (second conjunct); a
persistence exception raised in the prelude escapes as the response on
either path, streamed or buffered (third conjunct); and the prelude
does raise when conversation creation fails (fourth conjunct) or when
recording the incoming messages fails, whether the conversation was
resolved or freshly created (fifth conjunct). -/
theorem C5_amended :
    (∀ (ttl : Nat) (payload : MessagesRequest) (a : String) (ik : Option String)
        (rid : String) (hs : Bool) (db : Db) (cache : Cache) (env : HandlerEnv)
        (b1 b2 : Bool),
        payload.stream = true →
        (canonical_handler ttl payload a ik rid hs db cache
            { env with outgoingFails := b1 }).outcome
          = (canonical_handler ttl payload a ik rid hs db cache
              { env with outgoingFails := b2 }).outcome)
    ∧ (∀ (ttl : Nat) (payload : MessagesRequest) (a : String) (ik : Option String)
        (rid : String) (db : Db) (cache : Cache) (env : HandlerEnv)
        (cid : Nat) (res : ChatResponseFull),
        payload.stream = false →
        idem_lookup cache ttl env.now ik payload.stream = none →
        (persistence_prelude payload a rid (resolve_provider payload.model)
            true db env).2 = Except.ok (some cid) →
        env.providerFull = Except.ok res →
        env.outgoingFails = true →
        (canonical_handler ttl payload a ik rid true db cache env).outcome
          = .raised "PersistenceError")
    ∧ (∀ (ttl : Nat) (payload : MessagesRequest) (a : String) (ik : Option String)
        (rid : String) (db : Db) (cache : Cache) (env : HandlerEnv) (e : String),
        idem_lookup cache ttl env.now ik payload.stream = none →
        (persistence_prelude payload a rid (resolve_provider payload.model)
            true db env).2 = Except.error e →
        (canonical_handler ttl payload a ik rid true db cache env).outcome
          = .raised e)
    ∧ (∀ (payload : MessagesRequest) (a rid norm : String) (db : Db)
        (env : HandlerEnv),
        resolve_conversation db payload.conversation_id = none →
        env.createConvFails = true →
        (persistence_prelude payload a rid norm true db env).2
          = Except.error "PersistenceError")
    ∧ (∀ (payload : MessagesRequest) (a rid norm : String) (db : Db)
        (env : HandlerEnv),
        env.incomingFails = true → payload.messages ≠ [] →
        env.createConvFails = false →
        (persistence_prelude payload a rid norm true db env).2
          = Except.error "PersistenceError") := by
  refine ⟨?_, ?_, ?_, ?_, ?_⟩
  · intro ttl payload a ik rid hs db cache env b1 b2 hstream
    rw [handler_stream_outcome ttl payload a ik rid hs db cache
        { env with outgoingFails := b1 } hstream,
      handler_stream_outcome ttl payload a ik rid hs db cache
        { env with outgoingFails := b2 } hstream]
    rfl
  · intro ttl payload a ik rid db cache env cid res hstream hmiss hpre hprov hout
    rw [hstream] at hmiss
    simp [canonical_handler, hmiss, hpre, hstream, hprov, hout]
  · intro ttl payload a ik rid db cache env e hmiss hpre
    simp [canonical_handler, hmiss, hpre]
  · intro payload a rid norm db env hres hcc
    simp [persistence_prelude, hres, hcc]
  · intro payload a rid norm db env hinc hmsgs hcc
    cases hres : resolve_conversation db payload.conversation_id with
    | some conv =>
        rw [prelude_resolved payload a rid norm db env conv hres,
          record_incoming_fail payload norm rid conv.id db env hinc hmsgs]
    | none =>
        rw [prelude_create payload a rid norm db env hres hcc,
          record_incoming_fail payload norm rid env.freshConvId _ env hinc hmsgs]

/-- Witness for C5 at concrete streamed and buffered requests, covering
each failing persistence stage in turn. -/
theorem C5_witness :
    ((canonical_handler 60 ⟨"gpt-4o-mini", [exMsg], true, none⟩ "H" none "rid" true
        ⟨[], []⟩ [] { exEnv with outgoingFails := true }).outcome
      = (canonical_handler 60 ⟨"gpt-4o-mini", [exMsg], true, none⟩ "H" none "rid" true
          ⟨[], []⟩ [] { exEnv with outgoingFails := false }).outcome)
    ∧ ((persistence_prelude exPayload "H" "rid" (resolve_provider exPayload.model)
          true ⟨[], []⟩ { exEnv with outgoingFails := true }).2 = Except.ok (some 7))
    ∧ ((canonical_handler 60 exPayload "H" none "rid" true ⟨[], []⟩ []
          { exEnv with outgoingFails := true }).outcome
        = .raised "PersistenceError")
    ∧ ((canonical_handler 60 exPayload "H" none "rid" true ⟨[], []⟩ []
          { exEnv with incomingFails := true }).outcome
        = .raised "PersistenceError")
    ∧ ((persistence_prelude exPayload "H" "rid" "m" true ⟨[], []⟩
          { exEnv with createConvFails := true }).2
        = Except.error "PersistenceError")
    ∧ ((persistence_prelude exPayload "H" "rid" "m" true ⟨[], []⟩
          { exEnv with incomingFails := true }).2
        = Except.error "PersistenceError") := by
  refine ⟨C5_amended.1 60 ⟨"gpt-4o-mini", [exMsg], true, none⟩ "H" none "rid" true
      ⟨[], []⟩ [] exEnv true false rfl, rfl, ?_, ?_, ?_, ?_⟩
  · exact C5_amended.2.1 60 exPayload "H" none "rid" ⟨[], []⟩ []
      { exEnv with outgoingFails := true } 7 exRes rfl rfl rfl rfl rfl
  · exact C5_amended.2.2.1 60 exPayload "H" none "rid" ⟨[], []⟩ []
      { exEnv with incomingFails := true } "PersistenceError" rfl rfl
  · exact C5_amended.2.2.2.1 exPayload "H" "rid" "m" ⟨[], []⟩
      { exEnv with createConvFails := true } rfl rfl
  · exact C5_amended.2.2.2.2 exPayload "H" "rid" "m" ⟨[], []⟩
      { exEnv with incomingFails := true } rfl (by decide) rfl

/-- A freshly stored cache entry is returned for its key while the TTL
has not elapsed. -/
theorem get_set_cached (cache : Cache) (now : Nat) (k : String)
    (b : MessagesResponse) (ttl now2 : Nat) (h : now2 < now + ttl) :
    get_cached_response (set_cached_response cache now k b) ttl now2 k = some b := by
  unfold get_cached_response set_cached_response
  rw [List.find?_cons_of_pos _ (by simp)]
  simp [h]

/-- With benign persistence, the prelude always returns a conversation
id (or none without a session) and never raises. -/
theorem prelude_ok (payload : MessagesRequest) (a rid norm : String) (hs : Bool)
    (db : Db) (env : HandlerEnv)
    (hcc : env.createConvFails = false) (hinc : env.incomingFails = false) :
    ∃ db1 cido, persistence_prelude payload a rid norm hs db env = (db1, .ok cido) := by
  cases hs with
  | false => exact ⟨db, none, rfl⟩
  | true =>
      cases hres : resolve_conversation db payload.conversation_id with
      | none =>
          rw [prelude_create payload a rid norm db env hres hcc,
            record_incoming_ok _ _ _ _ _ _ (Or.inl hinc)]
          exact ⟨_, _, rfl⟩
      | some conv =>
          rw [prelude_resolved payload a rid norm db env conv hres,
            record_incoming_ok _ _ _ _ _ _ (Or.inl hinc)]
          exact ⟨_, _, rfl⟩

/-- A miss on a truthy key followed by a successful buffered run: the
handler returns some body, caches exactly that body under the key, and
invokes the provider once. -/
theorem handler_nonstream_success (ttl : Nat) (payload : MessagesRequest)
    (a k rid : String) (hs : Bool) (db : Db) (cache : Cache) (env : HandlerEnv)
    (res : ChatResponseFull)
    (hstream : payload.stream = false) (hk : k ≠ "")
    (hmiss : get_cached_response cache ttl env.now k = none)
    (hprov : env.providerFull = Except.ok res)
    (hcc : env.createConvFails = false) (hinc : env.incomingFails = false)
    (hout : env.outgoingFails = false) :
    ∃ body db2, canonical_handler ttl payload a (some k) rid hs db cache env
      = { outcome := .json body, db := db2,
          cache := set_cached_response cache env.now k body,
          providerCalls := 1, cacheLookups := 1, usageReports := 1 } := by
  have hkb : (k != "") = true := bne_iff_ne.mpr hk
  have hlk : idem_lookup cache ttl env.now (some k) false = none := by
    simp [idem_lookup, hkb, hmiss]
  obtain ⟨db1, cido, hpre⟩ :=
    prelude_ok payload a rid (resolve_provider payload.model) hs db env hcc hinc
  cases cido with
  | none =>
      exact ⟨⟨res.id, res.model, res.created, res.content, res.finish_reason,
          res.usage, none⟩, db1,
        by simp [canonical_handler, hlk, hpre, hstream, hprov, nonstream_result,
          hkb, pyTruthy]⟩
  | some cid =>
      exact ⟨⟨res.id, res.model, res.created, res.content, res.finish_reason,
          res.usage, some (uuidStr cid)⟩,
        create_chat_message db1 (outgoing_stored_full cid res rid env.elapsedMs),
        by simp [canonical_handler, hlk, hpre, hstream, hprov, hout,
          nonstream_result, hkb, pyTruthy]⟩

/-- A streamed request neither consults nor modifies the idempotency
cache. -/
theorem handler_stream_no_cache (ttl : Nat) (q : MessagesRequest) (aq : String)
    (ikq : Option String) (rq : String) (hq : Bool) (dq : Db) (cq : Cache)
    (ev : HandlerEnv) (hstream : q.stream = true) :
    (canonical_handler ttl q aq ikq rq hq dq cq ev).cacheLookups = 0
    ∧ (canonical_handler ttl q aq ikq rq hq dq cq ev).cache = cq := by
  have hlk : idem_lookup cq ttl ev.now ikq q.stream = none := by
    cases ikq with
    | none => rfl
    | some kk => simp [idem_lookup, hstream]
  refine ⟨?_, ?_⟩ <;>
    · simp only [canonical_handler, hlk]
      split <;> simp [hstream]

/-- Claim C6: a non-streamed request with a fresh truthy idempotency key
caches its body; a second non-streamed request reusing the key within
the TTL returns the very same body value (JSON serialization being a
deterministic function of the body, the wire bytes coincide) and makes
no provider call, so the provider was invoked exactly once across the
pair; and streamed requests never consult or populate the cache. -/
theorem C6_idempotency (ttl : Nat) (p1 p2 : MessagesRequest)
    (a1 a2 k r1 r2 : String) (hs1 hs2 : Bool) (db1 db2 : Db) (cache : Cache)
    (env1 env2 : HandlerEnv)
    (hk : k ≠ "") (hp1 : p1.stream = false) (hp2 : p2.stream = false)
    (hmiss : get_cached_response cache ttl env1.now k = none)
    (res : ChatResponseFull) (hprov : env1.providerFull = Except.ok res)
    (hcc : env1.createConvFails = false) (hinc : env1.incomingFails = false)
    (hout : env1.outgoingFails = false)
    (httl : env2.now < env1.now + ttl) :
    ((canonical_handler ttl p2 a2 (some k) r2 hs2 db2
        (canonical_handler ttl p1 a1 (some k) r1 hs1 db1 cache env1).cache
        env2).outcome
      = (canonical_handler ttl p1 a1 (some k) r1 hs1 db1 cache env1).outcome)
    ∧ (canonical_handler ttl p1 a1 (some k) r1 hs1 db1 cache env1).providerCalls = 1
    ∧ (canonical_handler ttl p2 a2 (some k) r2 hs2 db2
        (canonical_handler ttl p1 a1 (some k) r1 hs1 db1 cache env1).cache
        env2).providerCalls = 0
    ∧ (∀ (q : MessagesRequest) (aq : String) (ikq : Option String) (rq : String)
        (hq : Bool) (dq : Db) (cq : Cache) (ev : HandlerEnv), q.stream = true →
        (canonical_handler ttl q aq ikq rq hq dq cq ev).cacheLookups = 0
        ∧ (canonical_handler ttl q aq ikq rq hq dq cq ev).cache = cq) := by
  obtain ⟨body, dbx, h1⟩ := handler_nonstream_success ttl p1 a1 k r1 hs1 db1 cache
    env1 res hp1 hk hmiss hprov hcc hinc hout
  have h2 := handler_cache_hit ttl p2 a2 k r2 hs2 db2
    (set_cached_response cache env1.now k body) env2 body hp2 hk
    (get_set_cached cache env1.now k body ttl env2.now httl)
  rw [h1]
  refine ⟨?_, rfl, ?_, fun q aq ikq rq hq dq cq ev hstream =>
    handler_stream_no_cache ttl q aq ikq rq hq dq cq ev hstream⟩
  · dsimp only
    rw [h2]
  · dsimp only
    rw [h2]

/-- Witness for C6 at a concrete pair of keyed requests and a concrete
streamed request. -/
theorem C6_witness :
    ((canonical_handler 60 ⟨"m2", [], false, none⟩ "Hb" (some "K") "r2" true ⟨[], []⟩
        (canonical_handler 60 exPayload "Ha" (some "K") "r1" true ⟨[], []⟩ [] exEnv).cache
        { exEnv with now := 150 }).outcome
      = (canonical_handler 60 exPayload "Ha" (some "K") "r1" true ⟨[], []⟩ [] exEnv).outcome)
    ∧ (canonical_handler 60 exPayload "Ha" (some "K") "r1" true ⟨[], []⟩ []
        exEnv).providerCalls = 1
    ∧ (canonical_handler 60 ⟨"m2", [], false, none⟩ "Hb" (some "K") "r2" true ⟨[], []⟩
        (canonical_handler 60 exPayload "Ha" (some "K") "r1" true ⟨[], []⟩ [] exEnv).cache
        { exEnv with now := 150 }).providerCalls = 0
    ∧ ((canonical_handler 60 ⟨"m3", [], true, none⟩ "Hc" none "r3" true ⟨[], []⟩ []
          exEnv).cacheLookups = 0
        ∧ (canonical_handler 60 ⟨"m3", [], true, none⟩ "Hc" none "r3" true ⟨[], []⟩ []
            exEnv).cache = []) := by
  have h := C6_idempotency 60 exPayload ⟨"m2", [], false, none⟩ "Ha" "Hb" "K" "r1" "r2"
    true true ⟨[], []⟩ ⟨[], []⟩ [] exEnv { exEnv with now := 150 }
    (by decide) rfl rfl rfl exRes rfl rfl rfl rfl (by decide)
  exact ⟨h.1, h.2.1, h.2.2.1,
    h.2.2.2 ⟨"m3", [], true, none⟩ "Hc" none "r3" true ⟨[], []⟩ [] exEnv rfl⟩

/-! ## Resilience wrappers around the provider
(providers/openai_provider.py lines 31-60) -/

/-- pybreaker circuit state. -/
inductive BreakerState where
  | closed
  | opened
  | halfOpen
deriving DecidableEq, Repr

/-- The per-provider circuit breaker (`openai_breaker`). -/
structure CircuitBreaker where
  fail_count : Nat
  fail_max : Nat
  state : BreakerState
deriving DecidableEq, Repr

/-- One call through the breaker: an open breaker rejects at once without
invoking; otherwise a success resets the consecutive-failure counter and
closes the breaker, and a failure increments it, opening the breaker at
`fail_max`.  (The cool-down clock that later turns `opened` into
`halfOpen` is elided: no claim under verification depends on it.) -/
def breaker_call (cb : CircuitBreaker) (res : Except String α) :
    Except String α × CircuitBreaker :=
  match cb.state with
  | .opened => (.error "CircuitBreakerError", cb)
  | _ =>
      match res with
      | .ok a => (.ok a, { cb with fail_count := 0, state := .closed })
      | .error e =>
          (.error e,
           { cb with
              fail_count := cb.fail_count + 1
              state := if cb.fail_max ≤ cb.fail_count + 1 then .opened else cb.state })

/-- tenacity `retry(stop=stop_after_attempt(n), retry=..Exception..,
reraise=True)` around a breaker-guarded call: repeat on any error until
`n` attempts are spent, rethrowing the last error.  Returns the result,
the final breaker state, and the number of attempts made. -/
def retry_call : Nat → CircuitBreaker → (CircuitBreaker → Except String α × CircuitBreaker) →
    Except String α × CircuitBreaker × Nat
  | 0, cb, _ => (.error "RetryError", cb, 0)
  | n + 1, cb, f =>
      match f cb with
      | (.ok a, cb2) => (.ok a, cb2, 1)
      | (.error e, cb2) =>
          if n = 0 then (.error e, cb2, 1)
          else
            let r := retry_call n cb2 f
            (r.1, r.2.1, r.2.2 + 1)

/-- Calling a Python async generator function — and `generate_stream`
is one (providers/openai_provider.py line 38 contains `yield`) — merely
creates the generator object and cannot raise; the body, including the
stream-establishing `client.chat.completions.create`, runs only when
the routes iterate the generator inside `event_gen`. -/
def call_async_gen_function (body : StreamOutcome) : Except String StreamOutcome :=
  .ok body

/-- The decorated `provider.generate_stream(req)` call as the routes
execute it: tenacity's 4 attempts around the breaker around the creation
of the async generator (tenacity dispatches on `iscoroutinefunction`,
which is false for an async generator function, so the plain synchronous
call is wrapped).  What the created generator will later yield or raise
(`body`) passes through both wrappers untouched. -/
def generate_stream_call (cb : CircuitBreaker) (body : StreamOutcome) :
    Except String StreamOutcome × CircuitBreaker × Nat :=
  retry_call 4 cb (fun cb0 => breaker_call cb0 (call_async_gen_function body))

/-- Claim C7, counterexample: a provider stream that fails at
establishment (it raises before yielding any chunk, `str(e)` =
`"connection refused"`).  The retry/breaker stack sees a successful call
— one attempt, breaker untouched — so establishment is never retried,
and the failure reaches the client as an in-band error event followed by
the terminal sentinel.  This refutes "the retry and circuit-breaker
policies apply to stream establishment". -/
theorem C7_counterexample :
    (generate_stream_call ⟨0, 5, .closed⟩ (StreamOutcome.failure [] "connection refused")
      = (.ok (StreamOutcome.failure [] "connection refused"), ⟨0, 5, .closed⟩, 1))
    ∧ stream_with_timeout
        (event_gen none (StreamOutcome.failure [] "connection refused")) 300
      = [SSEvent.errorEvent "Streaming error occurred" (some "connection refused"),
         SSEvent.done] := by
  exact ⟨rfl, rfl⟩

/-- Claim C7 as amended: for streaming calls the retry and
circuit-breaker wrappers cover only the creation of the chunk generator,
which cannot fail — with a non-open breaker the decorated call returns
the generator in a single attempt and records a success, regardless of
how the stream will later fail.  Consequently every streaming failure,
including one at stream establishment (before the first chunk), is
terminal: it is surfaced as one in-band error event immediately followed
by the terminal sentinel, and is never retried. -/
theorem C7_amended (cb : CircuitBreaker) (body : StreamOutcome)
    (hnotopen : cb.state ≠ BreakerState.opened) :
    generate_stream_call cb body
      = (.ok body, { cb with fail_count := 0, state := .closed }, 1)
    ∧ (∀ (chunks : List ChatResponseChunk) (errMsg : String) (cid : Option String),
        body = StreamOutcome.failure chunks errMsg →
        ∃ front, event_gen cid body
          = front ++ [SSEvent.errorEvent "Streaming error occurred" (some errMsg),
              SSEvent.done]
          ∧ ∀ e ∈ front, ∃ i m c d f cv, e = SSEvent.chunkEvent i m c d f cv) := by
  constructor
  · obtain ⟨fc, fm, st⟩ := cb
    cases st with
    | closed => rfl
    | opened => exact absurd rfl hnotopen
    | halfOpen => rfl
  · intro chunks errMsg cid hbody
    subst hbody
    exact ⟨emitLoop cid 0 chunks, rfl, emitLoop_all_chunk cid 0 chunks⟩

/-- Witness for C7 at a concrete closed breaker and establishment
failure. -/
theorem C7_witness :
    ((⟨2, 5, .closed⟩ : CircuitBreaker).state ≠ BreakerState.opened)
    ∧ (generate_stream_call ⟨2, 5, .closed⟩ (StreamOutcome.failure [] "boom2")
        = (.ok (StreamOutcome.failure [] "boom2"), ⟨0, 5, .closed⟩, 1))
    ∧ (∃ front, event_gen none (StreamOutcome.failure [] "boom2")
        = front ++ [SSEvent.errorEvent "Streaming error occurred" (some "boom2"),
            SSEvent.done]
        ∧ ∀ e ∈ front, ∃ i m c d f cv, e = SSEvent.chunkEvent i m c d f cv) := by
  have h := C7_amended ⟨2, 5, .closed⟩ (StreamOutcome.failure [] "boom2") (by decide)
  exact ⟨by decide, h.1, h.2 [] "boom2" none rfl⟩

end Gateway
